import Mathlib

/-!
Verification development for the SuiStudio deploy-contract API route
(`src/app/api/deploy-contract/route.ts`).

The route file contains two successive variants of the `POST` handler.
We embed both as pure functions over an explicit oracle describing the
outcomes of all external actions (file system, faucet, RPC, compiler
subprocess), and record every externally visible action as an `Event`.

Handler 1 (the first `POST`, lines 32-172 of the route file):
burner keypair, optional master-wallet funding, writes a single
`/tmp/counter_<now>.move` file, publishes the raw source text as the
compiled module list, picks `created[0]` / `created[1]` as package and
object ids, best-effort init call, never removes the file.

Handler 2 (the second `POST`, lines 184-395): fixed `temp-contract`
workspace under the process cwd, `sui move build` subprocess, parses
`Compiled Modules: [...]` from stdout, uses the master wallet itself
when a mnemonic is configured (otherwise a fresh burner), faucet-first
funding with a (dead) master-transfer fallback, publish via
objectChanges, regex-based module-name detection for the init call, and
`rmSync` cleanup on both the success and the error path.
-/

/-- A key pair as visible to the handlers: a derived network address and
the hex-encoded secret. Modelled from the spec: key generation and
mnemonic derivation live in the `@mysten/sui` library, outside `src/`;
per spec §4.1 generation draws on fresh entropy and the address is
derived deterministically from the key, so we model both as injections
tagged by their origin. -/
structure Keypair where
  address : String
  privateKeyHex : String
deriving DecidableEq

/-- Modelled from the spec: `Ed25519Keypair.deriveKeypair(mnemonic)` /
`deriveKeypairFromMnemonic`, the configured master funding identity. -/
def deriveKeypair (mnemonic : String) : Keypair :=
  { address := "master:" ++ mnemonic, privateKeyHex := "masterkey:" ++ mnemonic }

/-- Modelled from the spec: `new Ed25519Keypair()` / `Ed25519Keypair.generate()`,
a fresh key pair from the attempt's entropy. -/
def generateKeypair (entropy : Nat) : Keypair :=
  { address := "burner:" ++ String.mk (List.replicate entropy '*'),
    privateKeyHex := "burnerkey:" ++ String.mk (List.replicate entropy '*') }

/-- Externally visible actions a handler run performs, in order. -/
inductive Event where
  | mkdirTemp (path : String)
  | writeFile (path : String) (content : String)
  | buildExec (cwdPath : String)
  | faucetRequest (addr : String)
  | faucetFetch (addr : String)
  | transferTx (recipient : String) (amountMist : Nat)
  | publishTx (modules : List String) (sender : String)
  | initTx (target : String)
  | rmDir (path : String)
deriving DecidableEq

/-! ## The regular-expression fragments used by handler 2

Handler 2 matches `moveCode` against `/module\s+(\w+)\s*::\s*(\w+)/` and
`/module\s+(\w+)\s*\{/`, and matches the build output against
`/Compiled Modules: \[([^\]]+)\]/`.  All character classes involved
(`\s`, `\w`, the literals `:`, `]`, the brace) are pairwise disjoint, so
per start position the greedy maximal-munch scan below is exactly the
JS regex semantics; the search tries start positions left to right.
`\s` (and JS `trim`) is modelled by `Char.isWhitespace`, which covers
space/tab/CR/LF but not the exotic Unicode spaces JS also accepts. -/

/-- `\w`, i.e. `[A-Za-z0-9_]`. -/
def isWordChar (c : Char) : Bool := c.isAlphanum || c = '_'

/-- `\s` (whitespace). -/
def isWS (c : Char) : Bool := c.isWhitespace

/-- Drop a literal pattern from the front of the input, or fail. -/
def dropPat : List Char → List Char → Option (List Char)
  | [], cs => some cs
  | _ :: _, [] => none
  | p :: ps, c :: cs => if c = p then dropPat ps cs else none

/-- Try `/module\s+(\w+)\s*::\s*(\w+)/` at this exact start position;
returns the second capture group (the element `match[match.length-1]`
the handler extracts). -/
def matchHeaderA (cs : List Char) : Option String :=
  match dropPat "module".toList cs with
  | none => none
  | some r0 =>
    let ws1 := r0.takeWhile isWS
    if ws1.isEmpty then none
    else
      let r1 := r0.drop ws1.length
      let w1 := r1.takeWhile isWordChar
      if w1.isEmpty then none
      else
        let r2 := (r1.drop w1.length).dropWhile isWS
        match dropPat "::".toList r2 with
        | none => none
        | some r3 =>
          let w2 := (r3.dropWhile isWS).takeWhile isWordChar
          if w2.isEmpty then none else some (String.mk w2)

/-- Try `/module\s+(\w+)\s*\{/` at this exact start position; returns the
single capture group. -/
def matchHeaderB (cs : List Char) : Option String :=
  match dropPat "module".toList cs with
  | none => none
  | some r0 =>
    let ws1 := r0.takeWhile isWS
    if ws1.isEmpty then none
    else
      let r1 := r0.drop ws1.length
      let w1 := r1.takeWhile isWordChar
      if w1.isEmpty then none
      else
        match (r1.drop w1.length).dropWhile isWS with
        | '\x7b' :: _ => some (String.mk w1)
        | _ => none

/-- Leftmost match of pattern A anywhere in the input. -/
def searchHeaderA : List Char → Option String
  | [] => none
  | c :: cs =>
    match matchHeaderA (c :: cs) with
    | some m => some m
    | none => searchHeaderA cs

/-- Leftmost match of pattern B anywhere in the input. -/
def searchHeaderB : List Char → Option String
  | [] => none
  | c :: cs =>
    match matchHeaderB (c :: cs) with
    | some m => some m
    | none => searchHeaderB cs

/-- `moveCode.match(A) || moveCode.match(B)`, then take the last element
of the match array: the module name the handler will call `init` on. -/
def matchModuleHeader (moveCode : String) : Option String :=
  match searchHeaderA moveCode.toList with
  | some m => some m
  | none => searchHeaderB moveCode.toList

/-- Literal part of `/Compiled Modules: \[([^\]]+)\]/`. -/
def compiledMarker : List Char := "Compiled Modules: [".toList

/-- Try the compiled-modules pattern at this exact start position;
captures the non-empty run of non-`]` characters after the marker,
requiring a closing `]`. -/
def matchCompiledAt (cs : List Char) : Option (List Char) :=
  match dropPat compiledMarker cs with
  | none => none
  | some r =>
    let cap := r.takeWhile (fun c => c ≠ ']')
    if cap.isEmpty then none
    else
      match r.drop cap.length with
      | ']' :: _ => some cap
      | _ => none

/-- Leftmost match of the compiled-modules pattern. -/
def searchCompiled : List Char → Option (List Char)
  | [] => none
  | c :: cs =>
    match matchCompiledAt (c :: cs) with
    | some cap => some cap
    | none => searchCompiled cs

/-- JS `String.prototype.split(sep)` on character lists:
`"".split(',') = [""]`, and separators neither merge nor trim. -/
def splitOnChar (sep : Char) : List Char → List (List Char)
  | [] => [[]]
  | c :: cs =>
    match splitOnChar sep cs with
    | [] => if c = sep then [[], [c]] else [[c]]
    | h :: t => if c = sep then [] :: h :: t else (c :: h) :: t

/-- JS `String.prototype.trim()` on character lists. -/
def trimChars (cs : List Char) : List Char :=
  ((cs.dropWhile isWS).reverse.dropWhile isWS).reverse

/-- Step 5 of handler 2: extract the capture, split on commas, trim each
piece, strip double quotes (`.replace(/"/g, '')`), drop empties
(`.filter(Boolean)`).  `none` is the
`Failed to extract compiled modules from build output` throw. -/
def parseModules (buildOutput : String) : Option (List String) :=
  match searchCompiled buildOutput.toList with
  | none => none
  | some cap =>
    some (((((splitOnChar ',' cap).map
      (fun m => (trimChars m).filter (fun c => c ≠ '"'))).filter
        (fun m => !m.isEmpty)).map (fun m => String.mk m)))

/-! ## Handler 1 -/

/-- `GAS_BUDGET` of handler 1 (0.1 SUI in MIST). -/
def GAS_BUDGET : Nat := 100000000

/-- Handler 1 configuration: `MASTER_WALLET_MNEMONIC` (empty string when
the env var is unset, matching the `|| ''` default). -/
structure Config1 where
  mnemonic : String
deriving DecidableEq

/-- The fields of `publishResult.effects` handler 1 reads:
`status.status` and the `created` object references (listed by their
`reference.objectId`). -/
structure PublishEffects where
  status : Option String
  created : List String
deriving DecidableEq

/-- Oracle for handler 1's external world: per-attempt entropy,
`Date.now()`, and the outcome of each awaited call.  `Except.error e`
models a rejection whose message is `e`. -/
structure Oracle1 where
  freshEntropy : Nat
  now : Nat
  faucetThrows : Bool
  transferThrows : Bool
  publishSubmit : Except String Unit
  waitResult : Except String PublishEffects
  initThrows : Bool

/-- Handler 1 HTTP responses. -/
inductive Response1 where
  | badRequest
  | ok (packageId objectId privateKeyHex address : String)
  | serverError (details : String)
deriving DecidableEq

/-- Result of one handler-1 run: the response, the chronological event
trace, and whether the `/tmp` source file still exists afterwards. -/
structure Outcome1 where
  response : Response1
  events : List Event
  moveFileExistsAfter : Bool
  moveFilePath : Option String
deriving DecidableEq

/-- Funding step of handler 1 (lines 51-74): only when a mnemonic is
configured; faucet request, then — only if the faucet did not throw —
the master transfer; every failure is swallowed by the surrounding
`catch`. -/
def fundEvents1 (cfg : Config1) (o : Oracle1) (address : String) : List Event :=
  if cfg.mnemonic ≠ "" then
    if o.faucetThrows then [Event.faucetRequest address]
    else [Event.faucetRequest address, Event.transferTx address GAS_BUDGET]
  else []

/-- Handler 1 from the file write onwards (lines 76-157): write the
`/tmp/counter_<now>.move` file, publish the raw `moveCode` as the module
list, check status and `created[0]`/`created[1]`, best-effort init.
No removal of the file on any path. -/
def deployCore1 (moveCode : String) (entropy nowMs : Nat)
    (publishSubmit : Except String Unit)
    (waitResult : Except String PublishEffects) : Outcome1 :=
  let kp := generateKeypair entropy
  let moduleName := "counter_" ++ toString nowMs
  let path := "/tmp/" ++ moduleName ++ ".move"
  let ev1 : List Event := [Event.writeFile path moveCode,
                           Event.publishTx [moveCode] kp.address]
  let failed : String → Outcome1 := fun e =>
    { response := Response1.serverError e, events := ev1,
      moveFileExistsAfter := true, moveFilePath := some path }
  match publishSubmit with
  | Except.error e => failed e
  | Except.ok _ =>
    match waitResult with
    | Except.error e => failed e
    | Except.ok eff =>
      if eff.status ≠ some "success" then failed "Publish transaction failed"
      else
        match eff.created.get? 0, eff.created.get? 1 with
        | some pid, some oid =>
          if pid = "" ∨ oid = "" then
            failed "Failed to extract package ID or object ID from publish result"
          else
            { response := Response1.ok pid oid kp.privateKeyHex kp.address,
              events := ev1 ++ [Event.initTx (pid ++ "::" ++ moduleName ++ "::init")],
              moveFileExistsAfter := true, moveFilePath := some path }
        | _, _ => failed "Failed to extract package ID or object ID from publish result"

/-- Handler 1 (`POST`, lines 32-172). `body = none` models a request
body without a `moveCode` field. -/
def POST1 (cfg : Config1) (body : Option String) (o : Oracle1) : Outcome1 :=
  match body with
  | none => { response := Response1.badRequest, events := [],
              moveFileExistsAfter := false, moveFilePath := none }
  | some moveCode =>
    if moveCode = "" then
      { response := Response1.badRequest, events := [],
        moveFileExistsAfter := false, moveFilePath := none }
    else
      let core := deployCore1 moveCode o.freshEntropy o.now o.publishSubmit o.waitResult
      { core with
        events := fundEvents1 cfg o (generateKeypair o.freshEntropy).address ++ core.events }

/-! ## Handler 2 -/

/-- Handler 2 configuration: the process working directory,
`MASTER_WALLET_MNEMONIC` (empty when unset) and the resolved
`SUI_NETWORK` (`'testnet'` default). -/
structure Config2 where
  cwd : String
  mnemonic : String
  network : String
deriving DecidableEq

/-- One entry of a transaction's `objectChanges` as handler 2 reads it:
the `type` tag and the optional `packageId` / `objectId` fields; the
`ownerKind` field is carried by the RPC data but never inspected by the
handler. -/
structure ObjectChange where
  type : String
  packageId : Option String := none
  objectId : Option String := none
  ownerKind : Option String := none
deriving DecidableEq

/-- A transaction response with optional `objectChanges`. -/
structure TxResponse where
  objectChanges : Option (List ObjectChange)
deriving DecidableEq

/-- Oracle for handler 2's external world. -/
structure Oracle2 where
  dirExistsAtStart : Bool
  buildResult : Except String String
  freshEntropy : Nat
  faucetThrows : Bool
  transferThrows : Bool
  publishResult : Except String TxResponse
  initResult : Except String TxResponse
  rmOk : Bool
  rmOkOnError : Bool

/-- Handler 2 HTTP responses. -/
inductive Response2 where
  | badRequest
  | ok (packageId : String) (objectId : Option String)
       (privateKeyHex address : String) (isUsingMasterWallet : Bool)
  | serverError (details : String)
deriving DecidableEq

/-- Result of one handler-2 run. -/
structure Outcome2 where
  response : Response2
  events : List Event
  tempDirExistsAfter : Bool
  workspaceRoot : Option String
deriving DecidableEq

/-- The fixed workspace root of handler 2:
`path.join(process.cwd(), 'temp-contract')`. -/
def tempDirOf (cfg : Config2) : String := cfg.cwd ++ "/temp-contract"

/-- The `Move.toml` content handler 2 writes. -/
def moveTomlContent : String :=
  "[package]\nname = \"temp_contract\"\nversion = \"0.0.1\"\nedition = \"2024.beta\"\n\n[dependencies]\nSui = \x7b git = \"https://github.com/MystenLabs/sui.git\", subdir = \"crates/sui-framework/packages/sui-framework\", rev = \"framework/testnet\" \x7d\n\n[addresses]\ntemp_contract = \"0x0\"\n"

/-- Steps 1-3 of handler 2: create the directory structure when absent,
write `Move.toml` and `sources/contract.move`. -/
def setupEvents (cfg : Config2) (moveCode : String) (o : Oracle2) : List Event :=
  (if o.dirExistsAtStart then []
   else [Event.mkdirTemp (tempDirOf cfg), Event.mkdirTemp (tempDirOf cfg ++ "/sources")]) ++
  [Event.writeFile (tempDirOf cfg ++ "/Move.toml") moveTomlContent,
   Event.writeFile (tempDirOf cfg ++ "/sources/contract.move") moveCode]

/-- Step 7 of handler 2: `isUsingMasterWallet`. -/
def isUsingMasterWallet (cfg : Config2) : Bool := cfg.mnemonic ≠ ""

/-- Step 7 of handler 2: the signing keypair — the master wallet when a
mnemonic is configured, otherwise a fresh burner. -/
def kp2 (cfg : Config2) (o : Oracle2) : Keypair :=
  if isUsingMasterWallet cfg then deriveKeypair cfg.mnemonic
  else generateKeypair o.freshEntropy

/-- Step 8 of handler 2: the funding block.  Runs only when not using
the master wallet and the network is testnet/devnet; the faucet fetch
is attempted, and only in its `catch` — and only if a mnemonic is
configured, which contradicts the enclosing guard — would the master
transfer run, whose own rejection would escape this block. -/
def funding2 (cfg : Config2) (o : Oracle2) (address : String) :
    Except String (List Event) :=
  if isUsingMasterWallet cfg = false ∧
      (cfg.network = "testnet" ∨ cfg.network = "devnet") then
    if o.faucetThrows then
      if cfg.mnemonic ≠ "" then
        if o.transferThrows then Except.error "master transfer failed"
        else Except.ok [Event.faucetFetch address,
                        Event.transferTx address 1000000000]
      else Except.ok [Event.faucetFetch address]
    else Except.ok [Event.faucetFetch address]
  else Except.ok []

/-- Step 10 of handler 2: the package id is the `packageId` of the first
`objectChanges` entry whose `type` is `'published'`. -/
def pidSel (resp : TxResponse) : Option String :=
  ((resp.objectChanges.getD []).find? (fun c => c.type == "published")).bind
    (fun c => c.packageId)

/-- Step 11 of handler 2: the object id extracted from the init call —
`null` when the call rejects, when `objectChanges` is absent, or when no
entry has type `'created'`; otherwise that entry's `objectId` field. -/
def initObjectId (o : Oracle2) : Option String :=
  match o.initResult with
  | Except.error _ => none
  | Except.ok ir =>
    match ir.objectChanges with
    | none => none
    | some l =>
      match l.find? (fun c => c.type == "created") with
      | none => none
      | some c => c.objectId

/-- The inner `catch` of handler 2 (lines 372-383): remove the workspace
(the directory exists on every reachable error path), swallow a removal
failure, rethrow; the outer `catch` turns the error into a 500. -/
def failOutcome2 (cfg : Config2) (o : Oracle2) (evs : List Event)
    (msg : String) : Outcome2 :=
  { response := Response2.serverError msg,
    events := evs ++ [Event.rmDir (tempDirOf cfg)],
    tempDirExistsAfter := !o.rmOkOnError,
    workspaceRoot := some (tempDirOf cfg) }

/-- Handler 2 after input validation (lines 195-383). -/
def deployCore2 (cfg : Config2) (moveCode : String) (o : Oracle2) : Outcome2 :=
  let tempDir := tempDirOf cfg
  let ev1 := setupEvents cfg moveCode o ++ [Event.buildExec tempDir]
  match o.buildResult with
  | Except.error e => failOutcome2 cfg o ev1 e
  | Except.ok buildOutput =>
    match parseModules buildOutput with
    | none => failOutcome2 cfg o ev1 "Failed to extract compiled modules from build output"
    | some modules =>
      let kp := kp2 cfg o
      match funding2 cfg o kp.address with
      | Except.error e =>
        failOutcome2 cfg o
          (ev1 ++ [Event.faucetFetch kp.address,
                   Event.transferTx kp.address 1000000000]) e
      | Except.ok fundEvents =>
        let ev2 := ev1 ++ fundEvents ++ [Event.publishTx modules kp.address]
        match o.publishResult with
        | Except.error e => failOutcome2 cfg o ev2 e
        | Except.ok resp =>
          match pidSel resp with
          | none => failOutcome2 cfg o ev2 "Failed to extract package ID from transaction"
          | some pid =>
            if pid = "" then
              failOutcome2 cfg o ev2 "Failed to extract package ID from transaction"
            else
              match matchModuleHeader moveCode with
              | none =>
                { response := Response2.ok pid none kp.privateKeyHex kp.address
                    (isUsingMasterWallet cfg),
                  events := ev2 ++ [Event.rmDir tempDir],
                  tempDirExistsAfter := !o.rmOk,
                  workspaceRoot := some tempDir }
              | some moduleName =>
                { response := Response2.ok pid (initObjectId o) kp.privateKeyHex
                    kp.address (isUsingMasterWallet cfg),
                  events := (ev2 ++ [Event.initTx (pid ++ "::" ++ moduleName ++ "::init")])
                    ++ [Event.rmDir tempDir],
                  tempDirExistsAfter := !o.rmOk,
                  workspaceRoot := some tempDir }

/-- Handler 2 (`POST`, lines 184-395). -/
def POST2 (cfg : Config2) (body : Option String) (o : Oracle2) : Outcome2 :=
  match body with
  | none => { response := Response2.badRequest, events := [],
              tempDirExistsAfter := o.dirExistsAtStart, workspaceRoot := none }
  | some moveCode =>
    if moveCode = "" then
      { response := Response2.badRequest, events := [],
        tempDirExistsAfter := o.dirExistsAtStart, workspaceRoot := none }
    else deployCore2 cfg moveCode o

/-! ## Concrete fixtures used by counterexamples and witnesses -/

/-- A build output whose parse yields two module blobs. -/
def buildOutOk : String := "Compiled Modules: [\"AAA=\", \"BBB=\"]"

/-- A publish response whose only `published` entry carries `0xP`; its
single created object is address-owned, so it has zero immutably-owned
created objects. -/
def publishOkResp : TxResponse :=
  { objectChanges := some
      [{ type := "published", packageId := some "0xP" },
       { type := "created", objectId := some "0xC", ownerKind := some "AddressOwner" }] }

/-- Handler-2 oracle for a fully successful pipeline (the init call
rejects, which handler 2 absorbs). -/
def oracle2Ok : Oracle2 :=
  { dirExistsAtStart := false, buildResult := Except.ok buildOutOk,
    freshEntropy := 0, faucetThrows := false, transferThrows := false,
    publishResult := Except.ok publishOkResp,
    initResult := Except.error "init failed",
    rmOk := true, rmOkOnError := true }

/-- Handler-2 configuration with a configured master mnemonic. -/
def cfg2Master : Config2 := { cwd := "/srv", mnemonic := "abc", network := "testnet" }

/-- Handler-2 configuration without a master mnemonic. -/
def cfg2NoMaster : Config2 := { cwd := "/srv", mnemonic := "", network := "testnet" }

/-- Handler-1 oracle for a successful publish whose init call rejects. -/
def oracle1Ok : Oracle1 :=
  { freshEntropy := 0, now := 0, faucetThrows := false, transferThrows := false,
    publishSubmit := Except.ok (),
    waitResult := Except.ok { status := some "success", created := ["0xP", "0xO"] },
    initThrows := true }

/-- Handler-1 oracle identical to `oracle1Ok` except that the faucet
request rejects. -/
def oracle1FaucetFail : Oracle1 :=
  { oracle1Ok with faucetThrows := true }

/-- Handler-1 configuration with a configured master mnemonic. -/
def cfg1Master : Config1 := { mnemonic := "abc" }

/-- Handler-1 configuration without a master mnemonic. -/
def cfg1NoMaster : Config1 := { mnemonic := "" }

/-! ## Sanity checks on the embedded string matching -/

example : matchModuleHeader "module temp_contract::contract" = some "contract" := by decide
example : matchModuleHeader "module counter \x7b " = some "counter" := by decide
example : matchModuleHeader "no header here" = none := by decide
example : parseModules "Compiled Modules: [\"aGVsbG8=\", \"d29ybGQ=\"]" =
    some ["aGVsbG8=", "d29ybGQ="] := by decide
example : parseModules "error: compilation failed" = none := by decide

/-! ## Shared helper lemmas -/

/-- A validated request body reduces handler 2 to its core. -/
theorem POST2_some (cfg : Config2) (code : String) (o : Oracle2) (hc : code ≠ "") :
    POST2 cfg (some code) o = deployCore2 cfg code o := by
  simp [POST2, hc]

/-- A validated request body reduces handler 1 to funding events plus its core. -/
theorem POST1_some (cfg : Config1) (code : String) (o : Oracle1) (hc : code ≠ "") :
    POST1 cfg (some code) o =
      { deployCore1 code o.freshEntropy o.now o.publishSubmit o.waitResult with
        events := fundEvents1 cfg o (generateKeypair o.freshEntropy).address ++
          (deployCore1 code o.freshEntropy o.now o.publishSubmit o.waitResult).events } := by
  simp [POST1, hc]

/-- The master-transfer fallback inside handler 2's funding catch is
unreachable (its guard contradicts the enclosing guard), so the funding
block never throws and contributes at most the faucet fetch. -/
theorem funding2_eq (cfg : Config2) (o : Oracle2) (a : String) :
    funding2 cfg o a =
      Except.ok (if isUsingMasterWallet cfg = false ∧
          (cfg.network = "testnet" ∨ cfg.network = "devnet")
        then [Event.faucetFetch a] else []) := by
  unfold funding2
  split
  · next h =>
    have hm : cfg.mnemonic = "" := by
      have h1 := h.1
      unfold isUsingMasterWallet at h1
      simpa using h1
    simp only [h, if_pos h.1, hm]
    cases o.faucetThrows <;> simp
  · next h => simp [h]

/-- The setup step emits only directory creations and file writes. -/
theorem initTx_not_setup (cfg : Config2) (code : String) (o : Oracle2) (t : String) :
    Event.initTx t ∉ setupEvents cfg code o := by
  unfold setupEvents; split <;> simp

/-- The setup step emits no publish transaction. -/
theorem publishTx_not_setup (cfg : Config2) (code : String) (o : Oracle2)
    (ms : List String) (s : String) :
    Event.publishTx ms s ∉ setupEvents cfg code o := by
  unfold setupEvents; split <;> simp

/-- The setup step emits no transfer transaction. -/
theorem transferTx_not_setup (cfg : Config2) (code : String) (o : Oracle2)
    (a : String) (n : Nat) :
    Event.transferTx a n ∉ setupEvents cfg code o := by
  unfold setupEvents; split <;> simp

/-! ## Claim C8 -/

/-- Claim C8: if the `moveCode` field of the request body is absent or
the empty string, both handlers return the 400 missing-required-field
response and perform no side effects — the event trace is empty (no
directory, file write, or network call) and no workspace path is
touched. -/
theorem C8_missing_moveCode_no_side_effects (c1 : Config1) (o1 : Oracle1)
    (cfg : Config2) (o : Oracle2) :
    POST1 c1 none o1 = { response := Response1.badRequest, events := [],
                         moveFileExistsAfter := false, moveFilePath := none } ∧
    POST1 c1 (some "") o1 = { response := Response1.badRequest, events := [],
                              moveFileExistsAfter := false, moveFilePath := none } ∧
    POST2 cfg none o = { response := Response2.badRequest, events := [],
                         tempDirExistsAfter := o.dirExistsAtStart, workspaceRoot := none } ∧
    POST2 cfg (some "") o = { response := Response2.badRequest, events := [],
                              tempDirExistsAfter := o.dirExistsAtStart, workspaceRoot := none } := by
  refine ⟨rfl, by simp [POST1], rfl, by simp [POST2]⟩

/-! ## Claim C10 -/

/-- Claim C10: in handler 2, an init transaction is attempted only when
the source text matches one of the embedded module-header patterns; for
source text matching neither pattern no init transaction is ever
submitted and a success response carries `objectId` null. -/
theorem C10_no_header_no_init (cfg : Config2) (code : String) (o : Oracle2)
    (hc : code ≠ "") (hm : matchModuleHeader code = none) :
    (∀ t, Event.initTx t ∉ (POST2 cfg (some code) o).events) ∧
    (∀ pid oid pk a b,
      (POST2 cfg (some code) o).response = Response2.ok pid oid pk a b → oid = none) := by
  rw [POST2_some cfg code o hc]
  unfold deployCore2
  simp only [funding2_eq, hm]
  constructor
  · intro t
    split
    · simp [failOutcome2, initTx_not_setup]
    · split
      · simp [failOutcome2, initTx_not_setup]
      · split
        · simp [failOutcome2, initTx_not_setup]
        · split
          · simp [failOutcome2, initTx_not_setup]
          · split
            · simp [failOutcome2, initTx_not_setup]
            · simp [initTx_not_setup]
  · intro pid oid pk a b h
    split at h
    · simp [failOutcome2] at h
    · split at h
      · simp [failOutcome2] at h
      · split at h
        · simp [failOutcome2] at h
        · split at h
          · simp [failOutcome2] at h
          · split at h
            · simp [failOutcome2] at h
            · simp at h
              exact h.2.1.symm

/-- Every run of handler 2's core either fails through the cleanup-and-
rethrow path, or succeeds carrying `kp2`'s identity; every branch ends
by attempting removal of the workspace directory. -/
theorem deployCore2_cases (cfg : Config2) (code : String) (o : Oracle2) :
    (∃ evs msg, deployCore2 cfg code o = failOutcome2 cfg o evs msg) ∨
    (∃ pid oid evs, deployCore2 cfg code o =
      { response := Response2.ok pid oid (kp2 cfg o).privateKeyHex (kp2 cfg o).address
          (isUsingMasterWallet cfg),
        events := evs ++ [Event.rmDir (tempDirOf cfg)],
        tempDirExistsAfter := !o.rmOk,
        workspaceRoot := some (tempDirOf cfg) }) := by
  unfold deployCore2
  simp only [funding2_eq]
  split
  · exact Or.inl ⟨_, _, rfl⟩
  · split
    · exact Or.inl ⟨_, _, rfl⟩
    · split
      · exact Or.inl ⟨_, _, rfl⟩
      · split
        · exact Or.inl ⟨_, _, rfl⟩
        · split
          · exact Or.inl ⟨_, _, rfl⟩
          · split
            · exact Or.inr ⟨_, _, _, rfl⟩
            · exact Or.inr ⟨_, _, _, rfl⟩

/-- The moveFileExistsAfter flag is set on every branch of handler 1's
core: the `/tmp` source file is never removed. -/
theorem deployCore1_file_persists (code : String) (e n : Nat)
    (ps : Except String Unit) (wr : Except String PublishEffects) :
    (deployCore1 code e n ps wr).moveFileExistsAfter = true := by
  simp only [deployCore1]
  split
  · rfl
  · split
    · rfl
    · split
      · rfl
      · split
        · split <;> rfl
        · rfl

/-! ## Claim C1 -/

/-- Claim C1 counterexample: a fully successful handler-1 deployment
returns its 200 response while the temporary source file it wrote for
the attempt still exists — the first handler never removes it on any
return path. -/
theorem C1_counterexample :
    (POST1 cfg1NoMaster (some "module demo::demo") oracle1Ok).response =
      Response1.ok "0xP" "0xO" "burnerkey:" "burner:" ∧
    (POST1 cfg1NoMaster (some "module demo::demo") oracle1Ok).moveFileExistsAfter = true ∧
    (POST1 cfg1NoMaster (some "module demo::demo") oracle1Ok).moveFilePath =
      some "/tmp/counter_0.move" := by
  refine ⟨rfl, rfl, rfl⟩

/-- Claim C1 (amended): in the second handler, every return path past
input validation attempts removal of the workspace directory before the
response, and when the removal call succeeds the directory no longer
exists once the response is returned; the first handler's temporary
source file persists after every response. -/
theorem C1_amended_workspace_cleanup (cfg : Config2) (code : String) (o : Oracle2)
    (hc : code ≠ "") :
    Event.rmDir (tempDirOf cfg) ∈ (POST2 cfg (some code) o).events ∧
    (o.rmOk = true → o.rmOkOnError = true →
      (POST2 cfg (some code) o).tempDirExistsAfter = false) ∧
    ∀ (c1 : Config1) (o1 : Oracle1), (POST1 c1 (some code) o1).moveFileExistsAfter = true := by
  rw [POST2_some cfg code o hc]
  refine ⟨?_, ?_, ?_⟩
  · rcases deployCore2_cases cfg code o with ⟨evs, msg, h⟩ | ⟨pid, oid, evs, h⟩ <;>
      simp [h, failOutcome2]
  · intro h1 h2
    rcases deployCore2_cases cfg code o with ⟨evs, msg, h⟩ | ⟨pid, oid, evs, h⟩ <;>
      simp [h, failOutcome2, h1, h2]
  · intro c1 o1
    rw [POST1_some c1 code o1 hc]
    exact deployCore1_file_persists code o1.freshEntropy o1.now o1.publishSubmit o1.waitResult

/-- Witness for the amended C1 at a concrete input. -/
theorem C1_amended_witness :
    Event.rmDir (tempDirOf cfg2NoMaster) ∈
      (POST2 cfg2NoMaster (some "module demo::demo") oracle2Ok).events ∧
    (POST2 cfg2NoMaster (some "module demo::demo") oracle2Ok).tempDirExistsAfter = false ∧
    (POST1 cfg1NoMaster (some "module demo::demo") oracle1Ok).moveFileExistsAfter = true := by
  have h := C1_amended_workspace_cleanup cfg2NoMaster "module demo::demo" oracle2Ok (by decide)
  exact ⟨h.1, h.2.1 rfl rfl, h.2.2 cfg1NoMaster oracle1Ok⟩

/-! ## Claim C2 -/

/-- The funding block of handler 2 contributes at most a faucet fetch. -/
theorem publishTx_not_fundList (c : Prop) [Decidable c] (a : String)
    (ms : List String) (s : String) :
    Event.publishTx ms s ∉ (if c then [Event.faucetFetch a] else []) := by
  split <;> simp

/-- Handler 1's funding step emits no publish transaction. -/
theorem publishTx_not_fund1 (cfg : Config1) (o : Oracle1) (a : String)
    (ms : List String) (s : String) :
    Event.publishTx ms s ∉ fundEvents1 cfg o a := by
  unfold fundEvents1
  split
  · split <;> simp
  · simp

/-- Any publish transaction handler 1's core emits attaches exactly the
raw submitted source text as the module list, signed by the burner. -/
theorem publishTx_mem_deployCore1 (code : String) (e n : Nat)
    (ps : Except String Unit) (wr : Except String PublishEffects)
    (ms1 : List String) (s1 : String)
    (h : Event.publishTx ms1 s1 ∈ (deployCore1 code e n ps wr).events) :
    ms1 = [code] ∧ s1 = (generateKeypair e).address := by
  simp only [deployCore1] at h
  split at h <;> try split at h
  all_goals try split at h
  all_goals try split at h
  all_goals try split at h
  all_goals simp_all

/-- The compiler subprocess is invoked (against the workspace) on every
run of handler 2's core. -/
theorem buildExec_mem_deployCore2 (cfg : Config2) (code : String) (o : Oracle2) :
    Event.buildExec (tempDirOf cfg) ∈ (deployCore2 cfg code o).events := by
  unfold deployCore2
  simp only [funding2_eq]
  split
  · simp [failOutcome2]
  · split
    · simp [failOutcome2]
    · split
      · simp [failOutcome2]
      · split
        · simp [failOutcome2]
        · split
          · simp [failOutcome2]
          · split <;> simp

/-- Any publish transaction handler 2 emits attaches exactly the module
list parsed from the compiler subprocess's captured stdout, signed by
`kp2`'s address. -/
theorem publishTx_mem_deployCore2 (cfg : Config2) (code : String) (o : Oracle2)
    (ms : List String) (s : String)
    (h : Event.publishTx ms s ∈ (deployCore2 cfg code o).events) :
    ∃ bo, o.buildResult = Except.ok bo ∧ parseModules bo = some ms ∧
      s = (kp2 cfg o).address := by
  unfold deployCore2 at h
  simp only [funding2_eq] at h
  split at h
  · simp [failOutcome2, publishTx_not_setup, publishTx_not_fundList] at h
  · rename_i bo hbo
    split at h
    · simp [failOutcome2, publishTx_not_setup, publishTx_not_fundList] at h
    · rename_i ms2 hms2
      split at h
      · simp [failOutcome2, publishTx_not_setup, publishTx_not_fundList] at h
        exact ⟨bo, hbo, by rw [hms2, h.1], h.2⟩
      · split at h
        · simp [failOutcome2, publishTx_not_setup, publishTx_not_fundList] at h
          exact ⟨bo, hbo, by rw [hms2, h.1], h.2⟩
        · split at h
          · simp [failOutcome2, publishTx_not_setup, publishTx_not_fundList] at h
            exact ⟨bo, hbo, by rw [hms2, h.1], h.2⟩
          · split at h
            · simp [publishTx_not_setup, publishTx_not_fundList] at h
              exact ⟨bo, hbo, by rw [hms2, h.1], h.2⟩
            · simp [publishTx_not_setup, publishTx_not_fundList] at h
              exact ⟨bo, hbo, by rw [hms2, h.1], h.2⟩

/-- Claim C2 counterexample: a successful handler-1 run writes the
source file, then attaches the raw submitted source text itself as the
module list of the publish transaction; no compiler subprocess is ever
invoked (no build event appears in the trace). -/
theorem C2_counterexample :
    (POST1 cfg1NoMaster (some "module demo::demo") oracle1Ok).events =
      [Event.writeFile "/tmp/counter_0.move" "module demo::demo",
       Event.publishTx ["module demo::demo"] "burner:",
       Event.initTx "0xP::counter_0::init"] := rfl

/-- Claim C2 (amended): in the second handler the compiler toolchain is
invoked as a subprocess against the workspace on every validated run,
and the modules attached to any publish transaction are exactly the
artifacts parsed from that subprocess's captured stdout; the first
handler invokes no compiler and attaches the raw submitted source text
itself as the module list. -/
theorem C2_amended_compiled_modules (cfg : Config2) (code : String) (o : Oracle2)
    (hc : code ≠ "") (ms : List String) (s : String)
    (hmem : Event.publishTx ms s ∈ (POST2 cfg (some code) o).events) :
    (Event.buildExec (tempDirOf cfg) ∈ (POST2 cfg (some code) o).events ∧
     ∃ bo, o.buildResult = Except.ok bo ∧ parseModules bo = some ms ∧
       s = (kp2 cfg o).address) ∧
    ∀ (c1 : Config1) (o1 : Oracle1) (ms1 : List String) (s1 : String),
      Event.publishTx ms1 s1 ∈ (POST1 c1 (some code) o1).events →
        ms1 = [code] ∧ s1 = (generateKeypair o1.freshEntropy).address := by
  rw [POST2_some cfg code o hc] at hmem ⊢
  refine ⟨⟨buildExec_mem_deployCore2 cfg code o,
           publishTx_mem_deployCore2 cfg code o ms s hmem⟩, ?_⟩
  intro c1 o1 ms1 s1 h1
  rw [POST1_some c1 code o1 hc] at h1
  simp only [List.mem_append] at h1
  rcases h1 with h1 | h1
  · exact absurd h1 (publishTx_not_fund1 c1 o1 _ ms1 s1)
  · exact publishTx_mem_deployCore1 code o1.freshEntropy o1.now
      o1.publishSubmit o1.waitResult ms1 s1 h1

/-- Witness for the amended C2 at a concrete input. -/
theorem C2_amended_witness :
    (Event.buildExec (tempDirOf cfg2NoMaster) ∈
       (POST2 cfg2NoMaster (some "module demo::demo") oracle2Ok).events ∧
     ∃ bo, oracle2Ok.buildResult = Except.ok bo ∧
       parseModules bo = some ["AAA=", "BBB="] ∧
       "burner:" = (kp2 cfg2NoMaster oracle2Ok).address) ∧
    ∀ (c1 : Config1) (o1 : Oracle1) (ms1 : List String) (s1 : String),
      Event.publishTx ms1 s1 ∈ (POST1 c1 (some "module demo::demo") o1).events →
        ms1 = ["module demo::demo"] ∧ s1 = (generateKeypair o1.freshEntropy).address :=
  C2_amended_compiled_modules cfg2NoMaster "module demo::demo" oracle2Ok (by decide)
    ["AAA=", "BBB="] "burner:" (by decide)

/-! ## Claim C3 -/

/-- Distinct per-attempt entropy yields distinct generated identities. -/
theorem generateKeypair_entropy_ne (e e' : Nat) (h : e ≠ e') :
    generateKeypair e ≠ generateKeypair e' := by
  intro hk
  apply h
  have h1 := congrArg (fun k => k.address.data) hk
  simp [generateKeypair] at h1
  exact h1

/-- A generated burner identity is never a derived master identity. -/
theorem generateKeypair_ne_derive (e : Nat) (m : String) :
    generateKeypair e ≠ deriveKeypair m := by
  intro hk
  have h1 := congrArg (fun k => k.address.data) hk
  simp [generateKeypair, deriveKeypair] at h1

/-- A success response of handler 1's core carries the burner identity. -/
theorem deployCore1_ok_identity (code : String) (e n : Nat)
    (ps : Except String Unit) (wr : Except String PublishEffects)
    (pid oid pk a : String)
    (h : (deployCore1 code e n ps wr).response = Response1.ok pid oid pk a) :
    pk = (generateKeypair e).privateKeyHex ∧ a = (generateKeypair e).address := by
  simp only [deployCore1] at h
  split at h <;> try split at h
  all_goals try split at h
  all_goals try split at h
  all_goals try split at h
  all_goals simp_all

/-- A success response of handler 2 carries `kp2`'s identity. -/
theorem deployCore2_ok_identity (cfg : Config2) (code : String) (o : Oracle2)
    (pid : String) (oid : Option String) (pk a : String) (b : Bool)
    (h : (deployCore2 cfg code o).response = Response2.ok pid oid pk a b) :
    pk = (kp2 cfg o).privateKeyHex ∧ a = (kp2 cfg o).address := by
  rcases deployCore2_cases cfg code o with ⟨evs, msg, he⟩ | ⟨pid2, oid2, evs, he⟩ <;>
    rw [he] at h
  · simp [failOutcome2] at h
  · simp at h
    exact ⟨h.2.2.1.symm, h.2.2.2.1.symm⟩

/-- Claim C3 counterexample: with a master mnemonic configured, a
successful handler-2 deployment signs with the configured master
identity and returns the master's address and private key to the
caller — the identity is not fresh and is shared by every attempt under
the same configuration. -/
theorem C3_counterexample :
    (POST2 cfg2Master (some "script x") oracle2Ok).response =
      Response2.ok "0xP" none "masterkey:abc" "master:abc" true ∧
    deriveKeypair cfg2Master.mnemonic =
      { address := "master:abc", privateKeyHex := "masterkey:abc" } := ⟨rfl, rfl⟩

/-- Claim C3 (amended): handler 1 always signs with and returns the
fresh per-attempt burner identity; distinct entropy yields distinct
identities and a burner never coincides with a derived master identity.
Handler 2 behaves this way only when no mnemonic is configured: when one
is configured, the master identity itself signs and its address and key
material are returned. -/
theorem C3_amended_identity (c1 : Config1) (code : String) (o1 : Oracle1)
    (cfg : Config2) (o : Oracle2) (hc : code ≠ "") :
    (∀ pid oid pk a, (POST1 c1 (some code) o1).response = Response1.ok pid oid pk a →
        pk = (generateKeypair o1.freshEntropy).privateKeyHex ∧
        a = (generateKeypair o1.freshEntropy).address) ∧
    (∀ pid oid pk a b, (POST2 cfg (some code) o).response = Response2.ok pid oid pk a b →
        pk = (kp2 cfg o).privateKeyHex ∧ a = (kp2 cfg o).address) ∧
    (cfg.mnemonic ≠ "" → kp2 cfg o = deriveKeypair cfg.mnemonic) ∧
    (cfg.mnemonic = "" → kp2 cfg o = generateKeypair o.freshEntropy) ∧
    (∀ e e' : Nat, e ≠ e' → generateKeypair e ≠ generateKeypair e') ∧
    (∀ e m, generateKeypair e ≠ deriveKeypair m) := by
  refine ⟨?_, ?_, ?_, ?_, generateKeypair_entropy_ne, generateKeypair_ne_derive⟩
  · intro pid oid pk a h
    rw [POST1_some c1 code o1 hc] at h
    exact deployCore1_ok_identity code o1.freshEntropy o1.now
      o1.publishSubmit o1.waitResult pid oid pk a h
  · intro pid oid pk a b h
    rw [POST2_some cfg code o hc] at h
    exact deployCore2_ok_identity cfg code o pid oid pk a b h
  · intro hm
    simp [kp2, isUsingMasterWallet, hm]
  · intro hm
    simp [kp2, isUsingMasterWallet, hm]

/-- Witness for the amended C3 at a concrete input. -/
theorem C3_amended_witness :
    ((POST1 cfg1NoMaster (some "script x") oracle1Ok).response =
        Response1.ok "0xP" "0xO" "burnerkey:" "burner:" →
      "burnerkey:" = (generateKeypair oracle1Ok.freshEntropy).privateKeyHex ∧
      "burner:" = (generateKeypair oracle1Ok.freshEntropy).address) ∧
    ((POST2 cfg2Master (some "script x") oracle2Ok).response =
        Response2.ok "0xP" none "masterkey:abc" "master:abc" true →
      "masterkey:abc" = (kp2 cfg2Master oracle2Ok).privateKeyHex ∧
      "master:abc" = (kp2 cfg2Master oracle2Ok).address) ∧
    kp2 cfg2Master oracle2Ok = deriveKeypair cfg2Master.mnemonic ∧
    generateKeypair 0 ≠ generateKeypair 1 ∧
    generateKeypair 0 ≠ deriveKeypair "abc" := by
  have h := C3_amended_identity cfg1NoMaster "script x" oracle1Ok
    cfg2Master oracle2Ok (by decide)
  exact ⟨h.1 "0xP" "0xO" "burnerkey:" "burner:",
         h.2.1 "0xP" none "masterkey:abc" "master:abc" true,
         h.2.2.1 (by decide),
         h.2.2.2.2.1 0 1 (by decide),
         h.2.2.2.2.2 0 "abc"⟩

/-- Witness for C10 at a concrete input matching neither pattern. -/
theorem C10_witness :
    Event.initTx "0xP::demo::init" ∉
      (POST2 cfg2NoMaster (some "no header here") oracle2Ok).events ∧
    ((POST2 cfg2NoMaster (some "no header here") oracle2Ok).response =
        Response2.ok "0xP" (some "0xC") "burnerkey:" "burner:" false →
      (some "0xC" : Option String) = none) := by
  have h := C10_no_header_no_init cfg2NoMaster "no header here" oracle2Ok
    (by decide) (by decide)
  exact ⟨h.1 "0xP::demo::init", h.2 "0xP" (some "0xC") "burnerkey:" "burner:" false⟩

/-! ## Claim C4 -/

/-- Claim C4 counterexample: a handler-2 publish whose object changes
contain zero immutably-owned created objects (the only created object is
address-owned) does not fail — the run returns the 200 response, with
packageId taken from the `published` entry; ownership is never
inspected. -/
theorem C4_counterexample :
    ((publishOkResp.objectChanges.getD []).filter
        (fun c => c.ownerKind == some "Immutable")).length = 0 ∧
    (POST2 cfg2NoMaster (some "script x") oracle2Ok).response =
      Response2.ok "0xP" none "burnerkey:" "burner:" false := ⟨rfl, rfl⟩

/-- A success response of handler 1's core reports `created[0]` as the
package id and `created[1]` as the object id of the publish effects. -/
theorem deployCore1_ok_created (code : String) (e n : Nat)
    (ps : Except String Unit) (wr : Except String PublishEffects)
    (pid oid pk a : String)
    (h : (deployCore1 code e n ps wr).response = Response1.ok pid oid pk a) :
    ∃ eff, wr = Except.ok eff ∧ eff.created.get? 0 = some pid ∧
      eff.created.get? 1 = some oid := by
  simp only [deployCore1] at h
  split at h <;> try split at h
  all_goals try split at h
  all_goals try split at h
  all_goals try split at h
  all_goals simp_all

/-- Claim C4 (amended): handler 2 selects as packageId the `packageId`
of the first objectChanges entry whose type is `'published'`, failing
with the 500 package-extraction error exactly when that is absent or
empty; handler 1 takes `created[0]` as packageId (requiring `created[1]`
as well).  Neither handler inspects object ownership. -/
theorem C4_amended_package_selection (cfg : Config2) (code : String) (o : Oracle2)
    (hc : code ≠ "") (bo : String) (ms : List String) (resp : TxResponse)
    (hb : o.buildResult = Except.ok bo) (hp : parseModules bo = some ms)
    (hr : o.publishResult = Except.ok resp) :
    (∀ pid, pidSel resp = some pid → pid ≠ "" →
      ∃ oid, (POST2 cfg (some code) o).response =
        Response2.ok pid oid (kp2 cfg o).privateKeyHex (kp2 cfg o).address
          (isUsingMasterWallet cfg)) ∧
    ((pidSel resp = none ∨ pidSel resp = some "") →
      (POST2 cfg (some code) o).response =
        Response2.serverError "Failed to extract package ID from transaction") ∧
    (∀ (c1 : Config1) (o1 : Oracle1) (pid1 oid1 pk1 a1 : String),
      (POST1 c1 (some code) o1).response = Response1.ok pid1 oid1 pk1 a1 →
      ∃ eff, o1.waitResult = Except.ok eff ∧ eff.created.get? 0 = some pid1 ∧
        eff.created.get? 1 = some oid1) := by
  rw [POST2_some cfg code o hc]
  unfold deployCore2
  simp only [funding2_eq, hb, hp, hr]
  refine ⟨?_, ?_, ?_⟩
  · intro pid hpid hne
    simp only [hpid]
    rw [if_neg hne]
    split
    · exact ⟨none, rfl⟩
    · exact ⟨initObjectId o, rfl⟩
  · intro hcase
    rcases hcase with hnone | hempty
    · simp only [hnone]
      simp [failOutcome2]
    · simp only [hempty]
      simp [failOutcome2]
  · intro c1 o1 pid1 oid1 pk1 a1 h
    rw [POST1_some c1 code o1 hc] at h
    exact deployCore1_ok_created code o1.freshEntropy o1.now
      o1.publishSubmit o1.waitResult pid1 oid1 pk1 a1 h

/-- Witness for the amended C4 at a concrete input. -/
theorem C4_amended_witness :
    (∃ oid, (POST2 cfg2NoMaster (some "script x") oracle2Ok).response =
      Response2.ok "0xP" oid (kp2 cfg2NoMaster oracle2Ok).privateKeyHex
        (kp2 cfg2NoMaster oracle2Ok).address (isUsingMasterWallet cfg2NoMaster)) ∧
    ∃ eff, oracle1Ok.waitResult = Except.ok eff ∧
      eff.created.get? 0 = some "0xP" ∧ eff.created.get? 1 = some "0xO" := by
  have h := C4_amended_package_selection cfg2NoMaster "script x" oracle2Ok
    (by decide) buildOutOk ["AAA=", "BBB="] publishOkResp rfl (by decide) rfl
  exact ⟨h.1 "0xP" (by decide) (by decide),
         h.2.2 cfg1NoMaster oracle1Ok "0xP" "0xO" "burnerkey:" "burner:" rfl⟩

/-! ## Claim C5 -/

/-- Claim C5 counterexample: in handler 1 the init call rejects, yet the
success response carries the second created object of the publish as
`objectId` — not null; handler 1's success responses can never carry a
null objectId, and a publish creating fewer than two objects is a 500,
not a success. -/
theorem C5_counterexample :
    oracle1Ok.initThrows = true ∧
    (POST1 cfg1NoMaster (some "module demo::demo") oracle1Ok).response =
      Response1.ok "0xP" "0xO" "burnerkey:" "burner:" ∧
    (POST1 cfg1NoMaster (some "module demo::demo")
        { oracle1Ok with waitResult :=
            (Except.ok ⟨some "success", ["0xP"]⟩) }).response =
      Response1.serverError
        "Failed to extract package ID or object ID from publish result" :=
  ⟨rfl, rfl, rfl⟩

/-- Claim C5 (amended): in the second handler, when the source matches
no module-header pattern or the init call fails, the response is still
the HTTP success and its `objectId` is null; in the first handler an
init failure also leaves the success response intact, but `objectId` is
always the second created object of the publish and never null. -/
theorem C5_amended_init_soft_fail (cfg : Config2) (code : String) (o : Oracle2)
    (hc : code ≠ "") (bo : String) (ms : List String) (resp : TxResponse)
    (pid : String)
    (hb : o.buildResult = Except.ok bo) (hp : parseModules bo = some ms)
    (hr : o.publishResult = Except.ok resp)
    (hpid : pidSel resp = some pid) (hne : pid ≠ "")
    (hfail : matchModuleHeader code = none ∨ ∃ e, o.initResult = Except.error e) :
    (POST2 cfg (some code) o).response =
      Response2.ok pid none (kp2 cfg o).privateKeyHex (kp2 cfg o).address
        (isUsingMasterWallet cfg) ∧
    ∀ (c1 : Config1) (o1 : Oracle1) (t : Bool),
      (POST1 c1 (some code) {o1 with initThrows := t}).response =
        (POST1 c1 (some code) o1).response := by
  constructor
  · rw [POST2_some cfg code o hc]
    unfold deployCore2
    simp only [funding2_eq, hb, hp, hr, hpid]
    rw [if_neg hne]
    cases hmm : matchModuleHeader code with
    | none => simp
    | some m =>
      rcases hfail with hnone | ⟨e, herr⟩
      · rw [hmm] at hnone; exact absurd hnone (by simp)
      · simp [initObjectId, herr]
  · intro c1 o1 t
    rw [POST1_some c1 code _ hc, POST1_some c1 code o1 hc]

/-- Witness for the amended C5 at a concrete input. -/
theorem C5_amended_witness :
    (POST2 cfg2NoMaster (some "script x") oracle2Ok).response =
      Response2.ok "0xP" none (kp2 cfg2NoMaster oracle2Ok).privateKeyHex
        (kp2 cfg2NoMaster oracle2Ok).address (isUsingMasterWallet cfg2NoMaster) ∧
    (POST1 cfg1NoMaster (some "script x") { oracle1Ok with initThrows := false }).response =
      (POST1 cfg1NoMaster (some "script x") oracle1Ok).response :=
  ⟨(C5_amended_init_soft_fail cfg2NoMaster "script x" oracle2Ok (by decide)
      buildOutOk ["AAA=", "BBB="] publishOkResp "0xP" rfl (by decide) rfl
      (by decide) (by decide) (Or.inr ⟨"init failed", rfl⟩)).1,
   (C5_amended_init_soft_fail cfg2NoMaster "script x" oracle2Ok (by decide)
      buildOutOk ["AAA=", "BBB="] publishOkResp "0xP" rfl (by decide) rfl
      (by decide) (by decide) (Or.inr ⟨"init failed", rfl⟩)).2
        cfg1NoMaster oracle1Ok false⟩

/-! ## Claim C6 -/

/-- Handler 1's core always reaches the publish attempt: the publish
transaction for the raw source appears in every branch's trace. -/
theorem publishTx_always_deployCore1 (code : String) (e n : Nat)
    (ps : Except String Unit) (wr : Except String PublishEffects) :
    Event.publishTx [code] (generateKeypair e).address ∈
      (deployCore1 code e n ps wr).events := by
  simp only [deployCore1]
  split <;> try split
  all_goals try split
  all_goals try split
  all_goals try split
  all_goals simp

/-- Claim C6: for every deployment attempt that passes validation, a
failure of any funding action (faucet request or master transfer) is
absorbed: handler 1's response is unchanged under any combination of
funding failures and its pipeline still reaches the publish attempt, and
handler 2's entire outcome is unchanged under any combination of funding
failures (the transfer branch being unreachable there). -/
theorem C6_funding_soft_fail (c1 : Config1) (code : String) (o1 : Oracle1)
    (cfg : Config2) (o : Oracle2) (hc : code ≠ "") (x y u v : Bool) :
    (POST1 c1 (some code) { o1 with faucetThrows := x, transferThrows := y }).response =
      (POST1 c1 (some code) o1).response ∧
    POST2 cfg (some code) { o with faucetThrows := u, transferThrows := v } =
      POST2 cfg (some code) o ∧
    ∃ s, Event.publishTx [code] s ∈
      (POST1 c1 (some code) { o1 with faucetThrows := x, transferThrows := y }).events := by
  refine ⟨?_, ?_, ?_⟩
  · rw [POST1_some c1 code _ hc, POST1_some c1 code o1 hc]
  · rw [POST2_some cfg code _ hc, POST2_some cfg code o hc]
    unfold deployCore2
    simp only [funding2_eq]
    rfl
  · refine ⟨(generateKeypair o1.freshEntropy).address, ?_⟩
    rw [POST1_some c1 code _ hc]
    exact List.mem_append_right _
      (publishTx_always_deployCore1 code o1.freshEntropy o1.now
        o1.publishSubmit o1.waitResult)

/-- Witness for C6 at a concrete input. -/
theorem C6_witness :
    (POST1 cfg1Master (some "module demo::demo")
        { oracle1Ok with faucetThrows := true, transferThrows := true }).response =
      (POST1 cfg1Master (some "module demo::demo") oracle1Ok).response ∧
    POST2 cfg2NoMaster (some "module demo::demo")
        { oracle2Ok with faucetThrows := true, transferThrows := true } =
      POST2 cfg2NoMaster (some "module demo::demo") oracle2Ok ∧
    ∃ s, Event.publishTx ["module demo::demo"] s ∈
      (POST1 cfg1Master (some "module demo::demo")
        { oracle1Ok with faucetThrows := true, transferThrows := true }).events :=
  C6_funding_soft_fail cfg1Master "module demo::demo" oracle1Ok
    cfg2NoMaster oracle2Ok (by decide) true true true true

/-! ## Claim C7 -/

/-- Claim C7 counterexample: with a master mnemonic configured and the
faucet request rejecting, handler 1's trace contains the faucet attempt
but no transfer transaction — the faucet rejection aborts the funding
try-block before the transfer is constructed. -/
theorem C7_counterexample :
    cfg1Master.mnemonic = "abc" ∧
    oracle1FaucetFail.faucetThrows = true ∧
    (POST1 cfg1Master (some "module demo::demo") oracle1FaucetFail).events =
      [Event.faucetRequest "burner:",
       Event.writeFile "/tmp/counter_0.move" "module demo::demo",
       Event.publishTx ["module demo::demo"] "burner:",
       Event.initTx "0xP::counter_0::init"] := ⟨rfl, rfl, rfl⟩

/-- The funding block of handler 2 contributes no transfer transaction. -/
theorem transferTx_not_fundList (c : Prop) [Decidable c] (a a2 : String) (m : Nat) :
    Event.transferTx a2 m ∉ (if c then [Event.faucetFetch a] else []) := by
  split <;> simp

/-- Handler 1's core emits no transfer transaction. -/
theorem transferTx_not_deployCore1 (code : String) (e n : Nat)
    (ps : Except String Unit) (wr : Except String PublishEffects)
    (a : String) (m : Nat) :
    Event.transferTx a m ∉ (deployCore1 code e n ps wr).events := by
  simp only [deployCore1]
  split <;> try split
  all_goals try split
  all_goals try split
  all_goals try split
  all_goals simp

/-- Handler 2 never emits a transfer transaction: the master-transfer
branch requires an unconfigured master identity and never executes. -/
theorem transferTx_not_deployCore2 (cfg : Config2) (code : String) (o : Oracle2)
    (a : String) (m : Nat) :
    Event.transferTx a m ∉ (deployCore2 cfg code o).events := by
  intro h
  unfold deployCore2 at h
  simp only [funding2_eq] at h
  split at h
  · simp [failOutcome2, transferTx_not_setup, transferTx_not_fundList] at h
  · split at h
    · simp [failOutcome2, transferTx_not_setup, transferTx_not_fundList] at h
    · split at h
      · simp [failOutcome2, transferTx_not_setup, transferTx_not_fundList] at h
      · split at h
        · simp [failOutcome2, transferTx_not_setup, transferTx_not_fundList] at h
        · split at h
          · simp [failOutcome2, transferTx_not_setup, transferTx_not_fundList] at h
          · split at h <;>
              simp [transferTx_not_setup, transferTx_not_fundList] at h

/-- Claim C7 (amended): in the first handler, when a master identity is
configured the fixed-amount transfer is constructed and submitted
exactly when the faucet request does not throw — a faucet rejection
skips it; in the second handler the master-transfer branch is
unreachable, so no transfer is ever submitted. -/
theorem C7_amended_transfer_semantics (c1 : Config1) (code : String)
    (o1 : Oracle1) (cfg : Config2) (o : Oracle2) (hc : code ≠ "") :
    (c1.mnemonic ≠ "" → o1.faucetThrows = false →
      Event.transferTx (generateKeypair o1.freshEntropy).address GAS_BUDGET ∈
        (POST1 c1 (some code) o1).events) ∧
    (o1.faucetThrows = true →
      ∀ a m, Event.transferTx a m ∉ (POST1 c1 (some code) o1).events) ∧
    (∀ a m, Event.transferTx a m ∉ (POST2 cfg (some code) o).events) := by
  refine ⟨?_, ?_, ?_⟩
  · intro hm hf
    rw [POST1_some c1 code o1 hc]
    refine List.mem_append_left _ ?_
    simp [fundEvents1, hm, hf]
  · intro hf a m h
    rw [POST1_some c1 code o1 hc] at h
    rcases List.mem_append.mp h with h | h
    · simp [fundEvents1, hf] at h
    · exact absurd h (transferTx_not_deployCore1 code o1.freshEntropy o1.now
        o1.publishSubmit o1.waitResult a m)
  · intro a m
    rw [POST2_some cfg code o hc]
    exact transferTx_not_deployCore2 cfg code o a m

/-- Witness for the amended C7 at a concrete input. -/
theorem C7_witness :
    Event.transferTx (generateKeypair oracle1Ok.freshEntropy).address GAS_BUDGET ∈
      (POST1 cfg1Master (some "module demo::demo") oracle1Ok).events ∧
    Event.transferTx "burner:" 1000000000 ∉
      (POST2 cfg2NoMaster (some "module demo::demo") oracle2Ok).events := by
  have h := C7_amended_transfer_semantics cfg1Master "module demo::demo" oracle1Ok
    cfg2NoMaster oracle2Ok (by decide)
  exact ⟨h.1 (by decide) rfl, h.2.2 "burner:" 1000000000⟩

/-! ## Claim C9 -/

/-- Claim C9 counterexample: two different deployment attempts through
handler 2 — different source text, different entropy — use the very
same workspace root: the fixed path `<cwd>/temp-contract`. -/
theorem C9_counterexample :
    (POST2 cfg2NoMaster (some "module demo::demo") oracle2Ok).workspaceRoot =
      some "/srv/temp-contract" ∧
    (POST2 cfg2NoMaster (some "script x")
        { oracle2Ok with freshEntropy := 7 }).workspaceRoot =
      some "/srv/temp-contract" := ⟨rfl, rfl⟩

/-- Handler 2's core always works in the fixed `temp-contract` root. -/
theorem deployCore2_root (cfg : Config2) (code : String) (o : Oracle2) :
    (deployCore2 cfg code o).workspaceRoot = some (tempDirOf cfg) := by
  rcases deployCore2_cases cfg code o with ⟨evs, msg, h⟩ | ⟨pid, oid, evs, h⟩ <;>
    simp [h, failOutcome2]

/-- Handler 1's core uses the timestamp-derived `/tmp` file path. -/
theorem deployCore1_path (code : String) (e n : Nat)
    (ps : Except String Unit) (wr : Except String PublishEffects) :
    (deployCore1 code e n ps wr).moveFilePath =
      some ("/tmp/" ++ ("counter_" ++ toString n) ++ ".move") := by
  simp only [deployCore1]
  split <;> try split
  all_goals try split
  all_goals try split
  all_goals try split
  all_goals simp

/-- Claim C9 (amended): handler 2 uses the fixed workspace root
`<cwd>/temp-contract` for every validated attempt, so any two attempts
in the same server process share one workspace directory; handler 1
derives its source-file path from the request timestamp alone, so two
attempts share the path exactly when their timestamps coincide. -/
theorem C9_amended_fixed_workspace (cfg : Config2) (code code2 : String)
    (o o2 : Oracle2) (hc : code ≠ "") (hc2 : code2 ≠ "") :
    (POST2 cfg (some code) o).workspaceRoot = some (tempDirOf cfg) ∧
    (POST2 cfg (some code2) o2).workspaceRoot =
      (POST2 cfg (some code) o).workspaceRoot ∧
    ∀ (c1 : Config1) (o1 : Oracle1),
      (POST1 c1 (some code) o1).moveFilePath =
        some ("/tmp/" ++ ("counter_" ++ toString o1.now) ++ ".move") := by
  refine ⟨?_, ?_, ?_⟩
  · rw [POST2_some cfg code o hc]
    exact deployCore2_root cfg code o
  · rw [POST2_some cfg code o hc, POST2_some cfg code2 o2 hc2]
    rw [deployCore2_root cfg code o, deployCore2_root cfg code2 o2]
  · intro c1 o1
    rw [POST1_some c1 code o1 hc]
    exact deployCore1_path code o1.freshEntropy o1.now o1.publishSubmit o1.waitResult

/-- Witness for the amended C9 at a concrete input. -/
theorem C9_witness :
    (POST2 cfg2NoMaster (some "module demo::demo") oracle2Ok).workspaceRoot =
      some (tempDirOf cfg2NoMaster) ∧
    (POST2 cfg2NoMaster (some "script x") oracle2Ok).workspaceRoot =
      (POST2 cfg2NoMaster (some "module demo::demo") oracle2Ok).workspaceRoot ∧
    (POST1 cfg1NoMaster (some "module demo::demo") oracle1Ok).moveFilePath =
      some ("/tmp/" ++ ("counter_" ++ toString oracle1Ok.now) ++ ".move") := by
  have h := C9_amended_fixed_workspace cfg2NoMaster "module demo::demo" "script x"
    oracle2Ok oracle2Ok (by decide) (by decide)
  exact ⟨h.1, h.2.1, h.2.2 cfg1NoMaster oracle1Ok⟩
